import Mathlib

/-!
# Verification of the loss-control backend core (src/app.py)

A shallow embedding of the core logic of `src/app.py`:
the OAuth token manager (`_amo_get_access_token`, `_amo_token_exchange`,
`_amo_refresh_token`), the paginated collector (`_amo_list_paged`),
the per-lead activity lookups (`_lead_has_open_tasks`, `_lead_last_task_ts`,
`_lead_last_note_ts`, `_lead_last_event_ts`, `_lead_last_activity_ts`),
the staleness deep check and the report aggregation, sorting and totals
of `report_dashboard`.

Conventions: epoch-second timestamps are `Nat`; money amounts and the
stale cutoff (which the code computes as `now - stale_days*86400` and may
in principle be negative) are `Int`; Python dictionary fields that may be
absent are `Option`; upstream HTTP calls that may raise are `Except Unit`
values supplied as parameters.
-/

namespace LossControl

/-- Python `a or b` for an optional integer field: both `None` and `0`
are falsy, so they fall through to the default. -/
def pyOrNat : Option Nat → Nat → Nat
  | none, b => b
  | some 0, b => b
  | some (n + 1), _ => n + 1

/-- Python `a or b` for an optional (possibly negative) integer field:
`None` and `0` are falsy. -/
def pyOrInt : Option Int → Int → Int
  | none, b => b
  | some v, b => if v = 0 then b else v

/-- Python `a or b` for an optional string field: `None` and the empty
string are falsy. -/
def pyOrStr : Option String → String → String
  | none, b => b
  | some s, b => if s = "" then b else s

/-- Python `str()` applied to an optional integer (`str(None) = "None"`). -/
def pyStrOptInt : Option Int → String
  | none => "None"
  | some i => toString i

/-- Code-point lexicographic comparison of character lists, as Python
compares strings. -/
def chars_le : List Char → List Char → Bool
  | [], _ => true
  | _ :: _, [] => false
  | a :: as, b :: bs =>
    if a.toNat < b.toNat then true
    else if b.toNat < a.toNat then false
    else chars_le as bs

/-- Python string `<=` (code-point lexicographic). -/
def str_le (a b : String) : Bool := chars_le a.data b.data

/-! ## Data model (provider records as consumed by src/app.py) -/

/-- A task record as read from the tasks endpoint. -/
structure Task where
  entity_id : Nat
  is_completed : Bool
  complete_till : Option Nat
  updated_at : Option Nat
  created_at : Option Nat
deriving Repr, DecidableEq

/-- A note record as read from the notes endpoint. -/
structure Note where
  updated_at : Option Nat
  created_at : Option Nat
deriving Repr, DecidableEq

/-- A timeline-event record as read from the events endpoint (already
filtered upstream to the relevant types). -/
structure TimelineEvent where
  created_at : Option Nat
deriving Repr, DecidableEq

/-- A deal (lead) record as read from the leads endpoint. -/
structure Lead where
  id : Nat
  name : Option String
  price : Option Int
  responsible_user_id : Option Int
  status_id : Option Int
  pipeline_id : Option Int
  loss_reason_id : Option Int
  updated_at : Option Nat
deriving Repr, DecidableEq

/-- The four upstream responses the activity helpers issue for one lead:
the open-task query, the latest-task query, the latest-note query and the
latest-relevant-event query.  `Except.error` models a raised exception
(HTTP failure) in `_amo_request`. -/
structure LeadApi where
  openTasks : Except Unit (List Task)
  lastTasks : Except Unit (List Task)
  lastNotes : Except Unit (List Note)
  lastEvents : Except Unit (List TimelineEvent)

/-! ## Activity helpers (src/app.py lines 360-448) -/

/-- `_lead_has_open_tasks`: true iff the incomplete-task query returns at
least one task; on any exception it returns `True` (prefer NOT to mark the
lead stale). -/
def lead_has_open_tasks (api : LeadApi) : Bool :=
  match api.openTasks with
  | .error _ => true
  | .ok tasks => decide (tasks.length > 0)

/-- `_lead_last_task_ts`: timestamp of the most recently updated task
(`updated_at or created_at or 0`), 0 if none or on exception. -/
def lead_last_task_ts (api : LeadApi) : Nat :=
  match api.lastTasks with
  | .error _ => 0
  | .ok [] => 0
  | .ok (t :: _) => pyOrNat t.updated_at (pyOrNat t.created_at 0)

/-- `_lead_last_note_ts`: timestamp of the most recent note
(`updated_at or created_at or 0`), 0 if none or on exception. -/
def lead_last_note_ts (api : LeadApi) : Nat :=
  match api.lastNotes with
  | .error _ => 0
  | .ok [] => 0
  | .ok (n :: _) => pyOrNat n.updated_at (pyOrNat n.created_at 0)

/-- `_lead_last_event_ts`: timestamp of the most recent relevant event
(`created_at or 0`), 0 if none or on exception. -/
def lead_last_event_ts (api : LeadApi) : Nat :=
  match api.lastEvents with
  | .error _ => 0
  | .ok [] => 0
  | .ok (e :: _) => pyOrNat e.created_at 0

/-- `_lead_last_activity_ts`: `max(lead.updated_at or 0, last task ts,
last note ts)`. -/
def lead_last_activity_ts (api : LeadApi) (l : Lead) : Nat :=
  max (pyOrNat l.updated_at 0) (max (lead_last_task_ts api) (lead_last_note_ts api))

/-- The combined activity timestamp of a lead: the basic signal joined
with the relevant-event signal, as `report_dashboard` computes `last_act`. -/
def lead_combined_activity_ts (api : LeadApi) (l : Lead) : Nat :=
  max (lead_last_activity_ts api l) (lead_last_event_ts api)

/-- The deep staleness check performed on each candidate in the
`for l in deep:` loop of `report_dashboard` (lines 830-849): open tasks
exclude the lead; then `last_basic` and finally `last_act = max(last_basic,
last_evt)` are compared against the cutoff with Python truthiness guards. -/
def stale_deep_check (api : LeadApi) (l : Lead) (cutoff : Int) : Bool :=
  if lead_has_open_tasks api then false
  else
    let lastBasic := lead_last_activity_ts api l
    if lastBasic ≠ 0 ∧ (lastBasic : Int) > cutoff then false
    else
      let lastEvt := lead_last_event_ts api
      let lastAct := max lastBasic lastEvt
      if lastAct ≠ 0 ∧ (lastAct : Int) > cutoff then false
      else true

/-- The provider tasks endpoint as queried by `_lead_has_open_tasks`
(external collaborator, behaviour per its interface in the spec, section 6):
`filter[entity_type]=leads`, `filter[entity_id]=lid`,
`filter[is_completed]=0`, `limit=1` returns the matching incomplete tasks,
at most one. -/
def open_tasks_query (db : List Task) (leadId : Nat) : List Task :=
  (db.filter (fun t => t.entity_id == leadId && !t.is_completed)).take 1

/-! ## Token manager (src/app.py lines 187-259) -/

/-- A stored OAuth token record (`tokens.json` entry for one subdomain). -/
structure TokenRecord where
  access_token : Option String
  refresh_token : Option String
  expires_at : Option Int
  base_url : Option String
deriving Repr, DecidableEq

/-- The failure modes of the token manager, matching the `RuntimeError`
messages `not_connected`, `token_refresh_failed` and
`token_missing_access_token`. -/
inductive TokenErr where
  | notConnected
  | refreshFailed
  | missingAccessToken
deriving Repr, DecidableEq

/-- The final access-token extraction of `_amo_get_access_token`
(lines 256-259): `tok.get("access_token")` followed by a truthiness check,
so a missing or empty token raises `token_missing_access_token`. -/
def token_access_check (tok : TokenRecord) : Except TokenErr String :=
  match tok.access_token with
  | none => .error .missingAccessToken
  | some s => if s = "" then .error .missingAccessToken else .ok s

/-- Outcome of one `_amo_get_access_token` call: the returned value or
error, the token store for this tenant after the call, and how many
upstream refresh requests were made. -/
structure TokenFetchResult where
  result : Except TokenErr String
  store : Option TokenRecord
  refreshCalls : Nat
deriving Repr

/-- `_amo_get_access_token` (lines 246-259), with the stored record, the
current wall-clock time and the outcome of the (possible) upstream refresh
call as parameters.  The expiry test is `int(tok.get("expires_at", 0)) <=
int(time.time())`; on refresh the new record is persisted via
`_tokens_set` before the access-token check. -/
def amo_get_access_token (stored : Option TokenRecord) (now : Int)
    (refreshOutcome : Except Unit TokenRecord) : TokenFetchResult :=
  match stored with
  | none => ⟨.error .notConnected, none, 0⟩
  | some tok =>
    if tok.expires_at.getD 0 ≤ now then
      match refreshOutcome with
      | .error _ => ⟨.error .refreshFailed, some tok, 1⟩
      | .ok refreshed => ⟨token_access_check refreshed, some refreshed, 1⟩
    else
      ⟨token_access_check tok, some tok, 0⟩

/-- The provider token-endpoint response body as parsed by
`_amo_token_exchange` and `_amo_refresh_token`. -/
structure OAuthTokenResponse where
  access_token : Option String
  refresh_token : Option String
  expires_in : Option Int
deriving Repr, DecidableEq

/-- The `expires_at` computation shared by `_amo_token_exchange` and
`_amo_refresh_token`: `int(time.time()) + max(expires_in - 60, 0)`. -/
def token_expires_at (now : Int) (expiresIn : Int) : Int :=
  now + max (expiresIn - 60) 0

/-- The record `_amo_token_exchange` (lines 201-222) returns on a 2xx
response: the response body with `expires_at` and `base_url` added, where
`expires_in = int(data.get("expires_in", 0) or 0)`. -/
def amo_token_exchange_record (now : Int) (base : String)
    (data : OAuthTokenResponse) : TokenRecord :=
  { access_token := data.access_token
    refresh_token := data.refresh_token
    expires_at := some (token_expires_at now (pyOrInt data.expires_in 0))
    base_url := some base }

/-- The record `_amo_refresh_token` (lines 225-243) returns on a 2xx
response; the body is identical to the exchange case. -/
def amo_refresh_token_record (now : Int) (base : String)
    (data : OAuthTokenResponse) : TokenRecord :=
  { access_token := data.access_token
    refresh_token := data.refresh_token
    expires_at := some (token_expires_at now (pyOrInt data.expires_in 0))
    base_url := some base }

/-! ## Paginated collector (src/app.py lines 282-309) -/

/-- One page response: the `_embedded` object (named lists) and whether
`_links` contains a `next` entry. -/
structure PageResp (α : Type) where
  embedded : List (String × List α)
  hasNext : Bool

/-- The known embedded-collection keys probed in order by
`_amo_list_paged`. -/
def known_embedded_keys : List String :=
  ["leads", "users", "pipelines", "loss_reasons", "tasks", "notes"]

/-- The embedded-key guessing of `_amo_list_paged`: the first known key
present in `_embedded`, else the first list-valued entry, else no items. -/
def pick_embedded_items {α : Type} (emb : List (String × List α)) : List α :=
  match known_embedded_keys.find? (fun k => (emb.lookup k).isSome) with
  | some k => (emb.lookup k).getD []
  | none =>
    match emb with
    | [] => []
    | (_, v) :: _ => v

/-- The `while page <= max_pages` loop of `_amo_list_paged`.  `fetch lim p`
is the (parsed) response of `_amo_request` for `params = {"limit": lim,
"page": p}`; besides the collected items we record the `(limit, page)`
pairs of every request issued. -/
def amo_list_paged_go {α : Type} (fetch : Nat → Nat → PageResp α)
    (limitParam : Nat) (maxPages : Nat) (page : Nat)
    (out : List α) (reqs : List (Nat × Nat)) : List α × List (Nat × Nat) :=
  if h : page ≤ maxPages then
    let data := fetch limitParam page
    let items := pick_embedded_items data.embedded
    let out2 := if items.isEmpty then out else out ++ items
    let reqs2 := reqs ++ [(limitParam, page)]
    if data.hasNext then
      amo_list_paged_go fetch limitParam maxPages (page + 1) out2 reqs2
    else (out2, reqs2)
  else (out, reqs)
termination_by maxPages + 1 - page
decreasing_by omega

/-- `_amo_list_paged`: start at page 1 with `limit = min(limit, 250)`. -/
def amo_list_paged {α : Type} (fetch : Nat → Nat → PageResp α)
    (lim : Nat) (maxPages : Nat) : List α × List (Nat × Nat) :=
  amo_list_paged_go fetch (min lim 250) maxPages 1 [] []

/-! ## Report aggregation and sorting (src/app.py lines 344-347, 852-947) -/

/-- `_days_since` (lines 344-347) specialised to the packing call site,
where `ts` is a nonnegative epoch value: 0 if `ts` is 0, else
`max(0, int((now - ts)/86400))` (with `Nat` subtraction and division this
is exactly the floored quotient clipped at 0). -/
def days_since (now : Nat) (ts : Nat) : Nat :=
  if ts = 0 then 0 else (now - ts) / 86400

/-- A lead as packed by `pack_lead` inside `report_dashboard`. -/
structure PackedLead where
  id : Nat
  name : String
  price : Int
  responsible_user_id : Option Int
  responsible_name : String
  status_id : Option Int
  pipeline_id : Option Int
  loss_reason_id : Option Int
  loss_reason : Option String
  updated_at : Option Nat
  last_activity_ts : Nat
  days_no_activity : Nat
deriving Repr, DecidableEq

/-- Python `dict.get` on a name directory keyed by id, with a possibly
absent (None) key. -/
def opt_lookup (m : List (Int × String)) : Option Int → Option String
  | none => none
  | some i => m.lookup i

/-- `pack_lead` (lines 852-869).  `lcTs` is the `_lc_last_activity_ts`
entry attached to stale leads (absent for lost leads); the displayed
`last_activity_ts` is `int(l.get("_lc_last_activity_ts") or
l.get("updated_at") or 0)`. -/
def pack_lead (userName reasonName : List (Int × String)) (now : Nat)
    (lcTs : Option Nat) (isLost : Bool) (l : Lead) : PackedLead :=
  let lastAct := pyOrNat lcTs (pyOrNat l.updated_at 0)
  { id := l.id
    name := pyOrStr l.name ("Сделка #" ++ toString l.id)
    price := pyOrInt l.price 0
    responsible_user_id := l.responsible_user_id
    responsible_name :=
      pyOrStr (opt_lookup userName l.responsible_user_id)
        (pyStrOptInt l.responsible_user_id)
    status_id := l.status_id
    pipeline_id := l.pipeline_id
    loss_reason_id := l.loss_reason_id
    loss_reason :=
      if isLost then some ((opt_lookup reasonName l.loss_reason_id).getD ("—"))
      else none
    updated_at := l.updated_at
    last_activity_ts := lastAct
    days_no_activity := days_since now lastAct }

/-- One row of a manager's `lost_by_reason` breakdown. -/
structure ReasonRow where
  reason : String
  count : Nat
  sum : Int
deriving Repr, DecidableEq

/-- One per-manager aggregate of `report_dashboard`. -/
structure ManagerAgg where
  manager_id : Option Int
  manager_name : String
  lost_count : Nat
  lost_sum : Int
  lost_by_reason : List ReasonRow
  lost_leads : List PackedLead
  stale_count : Nat
  stale_sum : Int
  stale_leads : List PackedLead
deriving Repr, DecidableEq

/-- The fresh aggregate `per_manager.setdefault` inserts on the first
reference to a manager. -/
def empty_manager_agg (userName : List (Int × String)) (uid : Option Int) :
    ManagerAgg :=
  { manager_id := uid
    manager_name := pyOrStr (opt_lookup userName uid) (pyStrOptInt uid)
    lost_count := 0
    lost_sum := 0
    lost_by_reason := []
    lost_leads := []
    stale_count := 0
    stale_sum := 0
    stale_leads := [] }

/-- `pm["lost_by_reason"].setdefault(rname, {...})` followed by the
count/sum increments, on an insertion-ordered association list. -/
def bump_reason (rows : List ReasonRow) (rname : String) (price : Int) :
    List ReasonRow :=
  if rows.any (fun r => r.reason == rname) then
    rows.map (fun r =>
      if r.reason == rname then
        { r with count := r.count + 1, sum := r.sum + price }
      else r)
  else rows ++ [⟨rname, 1, price⟩]

/-- `per_manager.setdefault(key, init)` followed by a mutation of the
entry, on an insertion-ordered association list keyed by `str(uid)`. -/
def upsert_manager (pms : List (String × ManagerAgg)) (key : String)
    (init : ManagerAgg) (f : ManagerAgg → ManagerAgg) :
    List (String × ManagerAgg) :=
  if pms.any (fun p => p.1 == key) then
    pms.map (fun p => if p.1 == key then (p.1, f p.2) else p)
  else pms ++ [(key, f init)]

/-- The lost-aggregation loop body (lines 874-898). -/
def add_lost_lead (userName reasonName : List (Int × String)) (now : Nat)
    (pms : List (String × ManagerAgg)) (l : Lead) :
    List (String × ManagerAgg) :=
  let uid := l.responsible_user_id
  let key := pyStrOptInt uid
  let price := pyOrInt l.price 0
  let rname := (opt_lookup reasonName l.loss_reason_id).getD ("Без причины")
  upsert_manager pms key (empty_manager_agg userName uid) (fun pm =>
    { pm with
      lost_count := pm.lost_count + 1
      lost_sum := pm.lost_sum + price
      lost_by_reason := bump_reason pm.lost_by_reason rname price
      lost_leads := pm.lost_leads ++ [pack_lead userName reasonName now none true l] })

/-- The stale-aggregation loop body (lines 901-921); `lcTs` is the
`_lc_last_activity_ts` value attached before the lead was appended to
`stale_leads`. -/
def add_stale_lead (userName reasonName : List (Int × String)) (now : Nat)
    (pms : List (String × ManagerAgg)) (l : Lead) (lcTs : Nat) :
    List (String × ManagerAgg) :=
  let uid := l.responsible_user_id
  let key := pyStrOptInt uid
  let price := pyOrInt l.price 0
  upsert_manager pms key (empty_manager_agg userName uid) (fun pm =>
    { pm with
      stale_count := pm.stale_count + 1
      stale_sum := pm.stale_sum + price
      stale_leads := pm.stale_leads ++ [pack_lead userName reasonName now (some lcTs) false l] })

/-! ### The four sort orders (lines 924-939) -/

/-- Lexicographic `<=` on an `Int` pair extended by a custom last
component, as Python compares 2-tuples built from sort keys. -/
def lex2_le {γ : Type} (cle : γ → γ → Bool) (a b : Int × γ) : Bool :=
  decide (a.1 < b.1) || (decide (a.1 = b.1) && cle a.2 b.2)

/-- Lexicographic `<=` on an `Int × Int × γ` triple, as Python compares
3-tuples built from sort keys. -/
def lex3_le {γ : Type} (cle : γ → γ → Bool) (a b : Int × Int × γ) : Bool :=
  decide (a.1 < b.1) || (decide (a.1 = b.1) && lex2_le cle a.2 b.2)

/-- `<=` on natural numbers as a Bool, for final tuple components. -/
def nat_le (a b : Nat) : Bool := decide (a ≤ b)

/-- The key `lambda x: (-x["sum"], -x["count"], x["reason"])`. -/
def reason_key (r : ReasonRow) : Int × Int × String :=
  (-r.sum, -(r.count : Int), r.reason)

/-- Reason-row order: ascending in `(-sum, -count, reason)`. -/
def reason_le (a b : ReasonRow) : Bool :=
  lex3_le str_le (reason_key a) (reason_key b)

/-- The key `lambda x: (-x["price"], x["id"])`. -/
def lost_lead_key (p : PackedLead) : Int × Nat := (-p.price, p.id)

/-- Lost-lead order: ascending in `(-price, id)`. -/
def lost_lead_le (a b : PackedLead) : Bool :=
  lex2_le nat_le (lost_lead_key a) (lost_lead_key b)

/-- The key `lambda x: (-x["price"], -x["days_no_activity"], x["id"])`. -/
def stale_lead_key (p : PackedLead) : Int × Int × Nat :=
  (-p.price, -(p.days_no_activity : Int), p.id)

/-- Stale-lead order: ascending in `(-price, -days_no_activity, id)`. -/
def stale_lead_le (a b : PackedLead) : Bool :=
  lex3_le nat_le (stale_lead_key a) (stale_lead_key b)

/-- The key `(-(lost_sum+stale_sum), -(lost_count+stale_count),
manager_name)`. -/
def manager_key (m : ManagerAgg) : Int × Int × String :=
  (-(m.lost_sum + m.stale_sum), -((m.lost_count : Int) + (m.stale_count : Int)),
    m.manager_name)

/-- Manager order: ascending in the risk key. -/
def manager_le (a b : ManagerAgg) : Bool :=
  lex3_le str_le (manager_key a) (manager_key b)

/-- The per-manager finalisation (lines 925-931): sort the reason rows and
the two lead lists.  Python `list.sort` is stable, as is `insertionSort`,
and for a total preorder all stable sorts agree. -/
def finalize_manager (pm : ManagerAgg) : ManagerAgg :=
  { pm with
    lost_by_reason :=
      List.insertionSort (fun a b => reason_le a b = true) pm.lost_by_reason
    lost_leads :=
      List.insertionSort (fun a b => lost_lead_le a b = true) pm.lost_leads
    stale_leads :=
      List.insertionSort (fun a b => stale_lead_le a b = true) pm.stale_leads }

/-- The `per_manager` dict after both aggregation loops, in insertion
order. -/
def per_manager_groups (userName reasonName : List (Int × String)) (now : Nat)
    (lostLeads : List Lead) (staleLeads : List (Lead × Nat)) :
    List (String × ManagerAgg) :=
  let afterLost :=
    lostLeads.foldl (fun pms l => add_lost_lead userName reasonName now pms l) []
  staleLeads.foldl
    (fun pms p => add_stale_lead userName reasonName now pms p.1 p.2) afterLost

/-- `managers_list` as returned (lines 924-939): each aggregate finalised,
then the list sorted by the risk key. -/
def build_managers_list (userName reasonName : List (Int × String)) (now : Nat)
    (lostLeads : List Lead) (staleLeads : List (Lead × Nat)) :
    List ManagerAgg :=
  List.insertionSort (fun a b => manager_le a b = true)
    ((per_manager_groups userName reasonName now lostLeads staleLeads).map
      (fun p => finalize_manager p.2))

/-- The `totals` object (lines 941-947), as the ordered key-value pairs of
the JSON dict the code builds. -/
def build_totals (ms : List ManagerAgg) : List (String × Int) :=
  let lostCount : Int := (ms.map (fun m => (m.lost_count : Int))).sum
  let lostSum : Int := (ms.map (fun m => m.lost_sum)).sum
  let staleCount : Int := (ms.map (fun m => (m.stale_count : Int))).sum
  let staleSum : Int := (ms.map (fun m => m.stale_sum)).sum
  [("lost_count", lostCount), ("lost_sum", lostSum),
   ("stale_count", staleCount), ("stale_sum", staleSum),
   ("total_risk_sum", lostSum + staleSum)]

/-- The aggregation core of `report_dashboard`: the sorted manager list
and the totals dict. -/
structure ReportCore where
  totals : List (String × Int)
  managers : List ManagerAgg
deriving Repr

/-- `report_dashboard` aggregation (lines 852-963) given the classified
lead sets. -/
def report_dashboard_core (userName reasonName : List (Int × String))
    (now : Nat) (lostLeads : List Lead) (staleLeads : List (Lead × Nat)) :
    ReportCore :=
  let ms := build_managers_list userName reasonName now lostLeads staleLeads
  ⟨build_totals ms, ms⟩

/-! ## Interleaving model of concurrent token fetches (for the
single-flight property): each thread runs `_amo_get_access_token`,
split at its two shared-store accesses — the read of the record
(line 247) and, on the expired path, the refresh-and-persist block
(lines 251-254).  The store is the shared `tokens.json` entry. -/

/-- Progress of one in-flight `_amo_get_access_token` call. -/
inductive TPhase where
  | start
  | readDone (tok : Option TokenRecord)
  | finished (res : Except TokenErr String)

/-- Shared store plus the two threads, and a count of upstream refresh
requests issued so far. -/
structure ConcState where
  store : Option TokenRecord
  refreshCalls : Nat
  t1 : TPhase
  t2 : TPhase

/-- One atomic step of a thread: first the read of the stored record,
then the expiry check with (on the expired path) the upstream refresh,
the persist and the access-token extraction, taken as one block —
a coarse atomicity that only strengthens any interference found.
`refreshResult` is the record the provider would hand this thread. -/
def thread_step (now : Int) (refreshResult : TokenRecord) (ph : TPhase)
    (store : Option TokenRecord) (calls : Nat) :
    TPhase × Option TokenRecord × Nat :=
  match ph with
  | .start => (.readDone store, store, calls)
  | .readDone none => (.finished (.error .notConnected), store, calls)
  | .readDone (some tok) =>
    if tok.expires_at.getD 0 ≤ now then
      (.finished (token_access_check refreshResult), some refreshResult, calls + 1)
    else
      (.finished (token_access_check tok), store, calls)
  | .finished r => (.finished r, store, calls)

/-- Run one scheduled step: `true` steps thread 1, `false` steps
thread 2. -/
def sched_step (now : Int) (r1 r2 : TokenRecord) (s : ConcState)
    (who : Bool) : ConcState :=
  if who then
    let next := thread_step now r1 s.t1 s.store s.refreshCalls
    { store := next.2.1, refreshCalls := next.2.2, t1 := next.1, t2 := s.t2 }
  else
    let next := thread_step now r2 s.t2 s.store s.refreshCalls
    { store := next.2.1, refreshCalls := next.2.2, t1 := s.t1, t2 := next.1 }

/-- Run a schedule of interleaved steps from an initial store with both
threads at their call entry. -/
def run_sched (now : Int) (r1 r2 : TokenRecord) (sched : List Bool)
    (store : Option TokenRecord) : ConcState :=
  sched.foldl (sched_step now r1 r2) ⟨store, 0, .start, .start⟩

/-! ## Claims about staleness classification -/

/-- C1: for a deal with no open task, the deep check classifies it stale
iff the combined activity timestamp `max(lead.updated_at, last task ts,
last note ts, last relevant event ts)` (absent signals counting 0) is at
or before the cutoff `now - staleDays*86400` (a nonnegative epoch value);
the boundary cases cutoff-1 (stale) and cutoff+1 (not stale) are
instances. -/
theorem claim_C1_stale_iff_combined_le_cutoff :
    ∀ (api : LeadApi) (l : Lead) (cutoff : Int),
      lead_has_open_tasks api = false → 0 ≤ cutoff →
      (stale_deep_check api l cutoff = true ↔
        ((lead_combined_activity_ts api l : Int) ≤ cutoff)) := by
  intro api l cutoff hOpen hCut
  unfold stale_deep_check lead_combined_activity_ts
  rw [hOpen]
  simp only [Bool.false_eq_true, if_false]
  set B := lead_last_activity_ts api l with hB
  set E := lead_last_event_ts api with hE
  have hle : (B : Int) ≤ ((max B E : Nat) : Int) := by
    exact_mod_cast Nat.le_max_left B E
  by_cases h1 : B ≠ 0 ∧ (B : Int) > cutoff
  · rw [if_pos h1]
    constructor
    · intro hfalse; exact absurd hfalse (by simp)
    · intro hR; exfalso; exact absurd (lt_of_lt_of_le h1.2 hle) (not_lt.mpr hR)
  · rw [if_neg h1]
    by_cases h2 : max B E ≠ 0 ∧ ((max B E : Nat) : Int) > cutoff
    · rw [if_pos h2]
      constructor
      · intro hfalse; exact absurd hfalse (by simp)
      · intro hR; exact absurd hR (not_le.mpr h2.2)
    · rw [if_neg h2]
      constructor
      · intro _
        push_neg at h2
        by_cases h0 : max B E = 0
        · rw [h0]; exact_mod_cast hCut
        · exact h2 h0
      · intro _; rfl

/-- C1 witness: with no tasks/notes/events and `updated_at` one second
before a 7-day cutoff of 604800 the deal is stale; one second after, it
is not. -/
theorem claim_C1_witness :
    lead_has_open_tasks ⟨.ok [], .ok [], .ok [], .ok []⟩ = false ∧
    (0 : Int) ≤ 604800 ∧
    stale_deep_check ⟨.ok [], .ok [], .ok [], .ok []⟩
      ⟨10, none, none, none, none, none, none, some 604799⟩ 604800 = true ∧
    stale_deep_check ⟨.ok [], .ok [], .ok [], .ok []⟩
      ⟨10, none, none, none, none, none, none, some 604801⟩ 604800 = false := by
  refine ⟨by decide, by decide, ?_, by decide⟩
  exact (claim_C1_stale_iff_combined_le_cutoff
    ⟨.ok [], .ok [], .ok [], .ok []⟩
    ⟨10, none, none, none, none, none, none, some 604799⟩ 604800
    (by decide) (by decide)).mpr (by decide)

/-- C2: a deal with at least one incomplete task attached is never
classified stale, however old its activity timestamps are: the open-task
query returns a result, and its positive outcome short-circuits the deep
check. -/
theorem claim_C2_open_task_never_stale :
    ∀ (db : List Task) (lid : Nat) (t : Task), t ∈ db →
      t.entity_id = lid → t.is_completed = false →
      ∀ (api : LeadApi) (l : Lead) (cutoff : Int),
        api.openTasks = Except.ok (open_tasks_query db lid) →
        stale_deep_check api l cutoff = false := by
  intro db lid t ht h1 h2 api l cutoff hApi
  have hfil : t ∈ db.filter (fun u => u.entity_id == lid && !u.is_completed) := by
    refine List.mem_filter.mpr ⟨ht, ?_⟩
    simp [h1, h2]
  have hne : db.filter (fun u => u.entity_id == lid && !u.is_completed) ≠ [] :=
    List.ne_nil_of_mem hfil
  have hopen : lead_has_open_tasks api = true := by
    unfold lead_has_open_tasks
    rw [hApi]
    unfold open_tasks_query
    cases hcase : db.filter (fun u => u.entity_id == lid && !u.is_completed) with
    | nil => exact absurd hcase hne
    | cons a as => simp [List.take]
  unfold stale_deep_check
  rw [hopen]
  simp

/-- C2 witness: an incomplete task with `complete_till` far in the past
still blocks staleness even when every other signal is ancient. -/
theorem claim_C2_witness :
    (⟨7, false, some 5, some 5, some 5⟩ : Task) ∈
        [(⟨7, false, some 5, some 5, some 5⟩ : Task)] ∧
    stale_deep_check
      ⟨.ok (open_tasks_query [⟨7, false, some 5, some 5, some 5⟩] 7),
        .ok [], .ok [], .ok []⟩
      ⟨7, none, none, none, none, none, none, some 1⟩ 604800 = false := by
  refine ⟨by decide, ?_⟩
  exact claim_C2_open_task_never_stale
    [⟨7, false, some 5, some 5, some 5⟩] 7 ⟨7, false, some 5, some 5, some 5⟩
    (by decide) (by decide) (by decide)
    ⟨.ok (open_tasks_query [⟨7, false, some 5, some 5, some 5⟩] 7),
      .ok [], .ok [], .ok []⟩
    ⟨7, none, none, none, none, none, none, some 1⟩ 604800 rfl

/-- C10: the failure modes are asymmetric.  If the open-task lookup
raises, the lead is treated as having an open task and is never stale
(fail-safe); if the last-task, last-note or last-event lookup raises, that
signal is 0, and the lead is still classified stale when the remaining
signal (`updated_at`) is at or before the cutoff (fail-open). -/
theorem claim_C10_failure_asymmetry :
    (∀ (api : LeadApi) (l : Lead) (cutoff : Int),
        api.openTasks = Except.error () → stale_deep_check api l cutoff = false) ∧
    (∀ api : LeadApi, api.lastTasks = Except.error () → lead_last_task_ts api = 0) ∧
    (∀ api : LeadApi, api.lastNotes = Except.error () → lead_last_note_ts api = 0) ∧
    (∀ api : LeadApi, api.lastEvents = Except.error () → lead_last_event_ts api = 0) ∧
    (∀ (l : Lead) (cutoff : Int),
        (pyOrNat l.updated_at 0 : Int) ≤ cutoff →
        stale_deep_check ⟨.ok [], .error (), .error (), .error ()⟩ l cutoff = true) := by
  refine ⟨?_, ?_, ?_, ?_, ?_⟩
  · intro api l cutoff hApi
    have hopen : lead_has_open_tasks api = true := by
      unfold lead_has_open_tasks; rw [hApi]
    unfold stale_deep_check
    rw [hopen]
    simp
  · intro api hApi; unfold lead_last_task_ts; rw [hApi]
  · intro api hApi; unfold lead_last_note_ts; rw [hApi]
  · intro api hApi; unfold lead_last_event_ts; rw [hApi]
  · intro l cutoff hle
    unfold stale_deep_check lead_has_open_tasks lead_last_activity_ts
    unfold lead_last_task_ts lead_last_note_ts lead_last_event_ts
    set u := pyOrNat l.updated_at 0 with hu
    have hguard : ¬ (u ≠ 0 ∧ (u : Int) > cutoff) := by
      rintro ⟨-, hgt⟩; omega
    simp [hguard]

/-- C10 witness: a failing task lookup shields a deal with ancient
signals; failing timestamp lookups do not, once `updated_at` is past the
cutoff. -/
theorem claim_C10_witness :
    stale_deep_check ⟨.error (), .ok [], .ok [], .ok []⟩
      ⟨3, none, none, none, none, none, none, some 1⟩ 604800 = false ∧
    (pyOrNat (some 9) 0 : Int) ≤ 604800 ∧
    stale_deep_check ⟨.ok [], .error (), .error (), .error ()⟩
      ⟨3, none, none, none, none, none, none, some 9⟩ 604800 = true := by
  refine ⟨?_, by decide, ?_⟩
  · exact claim_C10_failure_asymmetry.1 ⟨.error (), .ok [], .ok [], .ok []⟩
      ⟨3, none, none, none, none, none, none, some 1⟩ 604800 rfl
  · exact claim_C10_failure_asymmetry.2.2.2.2
      ⟨3, none, none, none, none, none, none, some 9⟩ 604800 (by decide)

/-! ## Claims about the token manager -/

/-- C4: `_amo_get_access_token` fails `not_connected` exactly when no
record is stored; with a fresh record (`now < expires_at`) it returns the
stored access token with no upstream call and no store change; with an
expired record it refreshes, persists the new record and returns its
access token; and it fails `token_missing_access_token` when the record it
ends up with lacks (or has an empty) access token, on either path. -/
theorem claim_C4_get_access_token :
    (∀ (stored : Option TokenRecord) (now : Int) (ro : Except Unit TokenRecord),
        (amo_get_access_token stored now ro).result
            = Except.error TokenErr.notConnected ↔ stored = none) ∧
    (∀ (tok : TokenRecord) (now : Int) (ro : Except Unit TokenRecord) (s : String),
        now < tok.expires_at.getD 0 → tok.access_token = some s → s ≠ "" →
        amo_get_access_token (some tok) now ro = ⟨Except.ok s, some tok, 0⟩) ∧
    (∀ (tok r : TokenRecord) (now : Int) (s : String),
        tok.expires_at.getD 0 ≤ now → r.access_token = some s → s ≠ "" →
        amo_get_access_token (some tok) now (Except.ok r)
            = ⟨Except.ok s, some r, 1⟩) ∧
    (∀ (tok r : TokenRecord) (now : Int),
        tok.expires_at.getD 0 ≤ now →
        (r.access_token = none ∨ r.access_token = some ("")) →
        (amo_get_access_token (some tok) now (Except.ok r)).result
            = Except.error TokenErr.missingAccessToken) ∧
    (∀ (tok : TokenRecord) (now : Int) (ro : Except Unit TokenRecord),
        now < tok.expires_at.getD 0 →
        (tok.access_token = none ∨ tok.access_token = some ("")) →
        (amo_get_access_token (some tok) now ro).result
            = Except.error TokenErr.missingAccessToken) := by
  have hne : ∀ tok : TokenRecord,
      token_access_check tok ≠ Except.error TokenErr.notConnected := by
    intro tok
    unfold token_access_check
    cases htok : tok.access_token with
    | none => simp
    | some s =>
      by_cases hs : s = ""
      · simp [hs]
      · simp [hs]
  refine ⟨?_, ?_, ?_, ?_, ?_⟩
  · intro stored now ro
    constructor
    · intro h
      cases stored with
      | none => rfl
      | some tok =>
        exfalso
        unfold amo_get_access_token at h
        dsimp only at h
        by_cases hexp : tok.expires_at.getD 0 ≤ now
        · rw [if_pos hexp] at h
          cases ro with
          | error e => simp at h
          | ok r =>
            dsimp only at h
            exact hne r h
        · rw [if_neg hexp] at h
          dsimp only at h
          exact hne tok h
    · intro h; rw [h]; rfl
  · intro tok now ro s hfresh hat hs
    unfold amo_get_access_token
    dsimp only
    rw [if_neg (not_le.mpr hfresh)]
    simp [token_access_check, hat, hs]
  · intro tok r now s hexp hat hs
    unfold amo_get_access_token
    dsimp only
    rw [if_pos hexp]
    simp [token_access_check, hat, hs]
  · intro tok r now hexp hat
    unfold amo_get_access_token
    dsimp only
    rw [if_pos hexp]
    rcases hat with h | h <;> simp [token_access_check, h]
  · intro tok now ro hfresh hat
    unfold amo_get_access_token
    dsimp only
    rw [if_neg (not_le.mpr hfresh)]
    rcases hat with h | h <;> simp [token_access_check, h]

/-- C4 witness: the four contract cases at concrete records (stored token
"T" expiring at 100, refreshed token "NEW"). -/
theorem claim_C4_witness :
    (amo_get_access_token none 0 (Except.error ())).result
        = Except.error TokenErr.notConnected ∧
    amo_get_access_token (some ⟨some ("T"), some ("R"), some 100, none⟩) 50
        (Except.error ())
      = ⟨Except.ok ("T"), some ⟨some ("T"), some ("R"), some 100, none⟩, 0⟩ ∧
    amo_get_access_token (some ⟨some ("T"), some ("R"), some 100, none⟩) 100
        (Except.ok ⟨some ("NEW"), some ("R2"), some 900, none⟩)
      = ⟨Except.ok ("NEW"), some ⟨some ("NEW"), some ("R2"), some 900, none⟩, 1⟩ ∧
    (amo_get_access_token (some ⟨some ("T"), some ("R"), some 100, none⟩) 100
        (Except.ok ⟨none, some ("R2"), some 900, none⟩)).result
      = Except.error TokenErr.missingAccessToken := by
  refine ⟨?_, ?_, ?_, ?_⟩
  · exact (claim_C4_get_access_token.1 none 0 (Except.error ())).mpr rfl
  · exact claim_C4_get_access_token.2.1 ⟨some ("T"), some ("R"), some 100, none⟩ 50
      (Except.error ()) "T" (by decide) rfl (by decide)
  · exact claim_C4_get_access_token.2.2.1 ⟨some ("T"), some ("R"), some 100, none⟩
      ⟨some ("NEW"), some ("R2"), some 900, none⟩ 100 ("NEW") (by decide) rfl (by decide)
  · exact claim_C4_get_access_token.2.2.2.1 ⟨some ("T"), some ("R"), some 100, none⟩
      ⟨none, some ("R2"), some 900, none⟩ 100 (by decide) (Or.inl rfl)

/-- C9: both the authorization-code exchange and the refresh store
`expires_at = now + max(expires_in - 60, 0)`, never before the creation
time, even when `expires_in <= 60`. -/
theorem claim_C9_expiry_margin :
    ∀ (now : Int) (base : String) (data : OAuthTokenResponse),
      (amo_token_exchange_record now base data).expires_at
          = some (now + max (pyOrInt data.expires_in 0 - 60) 0) ∧
      (amo_refresh_token_record now base data).expires_at
          = some (now + max (pyOrInt data.expires_in 0 - 60) 0) ∧
      now ≤ ((amo_token_exchange_record now base data).expires_at).getD 0 ∧
      now ≤ ((amo_refresh_token_record now base data).expires_at).getD 0 := by
  intro now base data
  refine ⟨rfl, rfl, ?_, ?_⟩ <;>
    · show now ≤ token_expires_at now (pyOrInt data.expires_in 0)
      unfold token_expires_at
      have := le_max_right (pyOrInt data.expires_in 0 - 60) 0
      omega

/-! ## Claims about the paginated collector -/

/-- Request trace of the pagination loop: starting at `page`, the loop
appends requests for consecutive pages `page, page+1, ...`; it makes none
when `page > maxPages`, and otherwise between 1 and `maxPages + 1 - page`
of them. -/
theorem amo_list_paged_go_reqs {α : Type} (fetch : Nat → Nat → PageResp α)
    (L maxPages : Nat) :
    ∀ (fuel page : Nat), maxPages + 1 - page ≤ fuel →
      ∀ (out : List α) (reqs : List (Nat × Nat)),
      ∃ k, ((maxPages < page ∧ k = 0) ∨
              (page ≤ maxPages ∧ 1 ≤ k ∧ page + k ≤ maxPages + 1)) ∧
        (amo_list_paged_go fetch L maxPages page out reqs).2
          = reqs ++ (List.range' page k).map (fun p => (L, p)) := by
  intro fuel
  induction fuel with
  | zero =>
    intro page hf out reqs
    have hgt : ¬ page ≤ maxPages := by omega
    refine ⟨0, Or.inl ⟨by omega, rfl⟩, ?_⟩
    unfold amo_list_paged_go
    rw [dif_neg hgt]
    simp
  | succ n ih =>
    intro page hf out reqs
    by_cases hle : page ≤ maxPages
    · unfold amo_list_paged_go
      rw [dif_pos hle]
      dsimp only
      by_cases hnext : (fetch L page).hasNext
      · rw [if_pos hnext]
        obtain ⟨k, hk, heq⟩ := ih (page + 1) (by omega)
          (if (pick_embedded_items (fetch L page).embedded).isEmpty then out
            else out ++ pick_embedded_items (fetch L page).embedded)
          (reqs ++ [(L, page)])
        refine ⟨k + 1, Or.inr ⟨hle, by omega, by omega⟩, ?_⟩
        rw [heq]
        have hr : List.range' page (k + 1) = page :: List.range' (page + 1) k := rfl
        rw [hr]
        simp
      · rw [if_neg hnext]
        refine ⟨1, Or.inr ⟨hle, le_refl 1, by omega⟩, ?_⟩
        have hr : List.range' page 1 = [page] := rfl
        rw [hr]
        simp
    · refine ⟨0, Or.inl ⟨by omega, rfl⟩, ?_⟩
      unfold amo_list_paged_go
      rw [dif_neg hle]
      simp

/-- C6: the collector issues at most `maxPages` page requests however many
next links the upstream claims, requesting pages 1, 2, ... in increasing
order, each with the limit parameter `min(pageSize, 250)`. -/
theorem claim_C6_pagination_bound :
    ∀ (α : Type) (fetch : Nat → Nat → PageResp α) (lim maxPages : Nat),
      (amo_list_paged fetch lim maxPages).2.length ≤ maxPages ∧
      (amo_list_paged fetch lim maxPages).2
        = (List.range' 1 ((amo_list_paged fetch lim maxPages).2.length)).map
            (fun p => (min lim 250, p)) := by
  intro α fetch lim maxPages
  obtain ⟨k, hk, heq⟩ := amo_list_paged_go_reqs fetch (min lim 250) maxPages
    (maxPages + 1) 1 (by omega) [] []
  unfold amo_list_paged
  rw [heq]
  constructor
  · simp only [List.nil_append, List.length_map, List.length_range']
    omega
  · simp only [List.nil_append, List.length_map, List.length_range']

/-- The upstream behaviour refuting C7: page 1 carries an empty `leads`
collection but still advertises a next page; page 2 carries one record and
no next link. -/
def c7_fetch : Nat → Nat → PageResp Nat := fun _ p =>
  if p = 1 then ⟨[("leads", [])], true⟩ else ⟨[("leads", [42])], false⟩

/-- An upstream whose first page is empty with no next link. -/
def c7_fetch_empty : Nat → Nat → PageResp Nat := fun _ _ =>
  ⟨[("leads", [])], false⟩

/-- C7 counterexample: the first page's embedded collection is empty, yet
the collector issues a second request (the claim says an empty page stops
pagination) and returns the second page's items rather than the empty
sequence. -/
theorem claim_C7_counterexample :
    pick_embedded_items ((c7_fetch 100 1).embedded) = [] ∧
    amo_list_paged c7_fetch 100 50 = ([42], [(100, 1), (100, 2)]) := by
  constructor
  · simp [c7_fetch, pick_embedded_items, known_embedded_keys]
  · unfold amo_list_paged
    unfold amo_list_paged_go
    norm_num [c7_fetch, pick_embedded_items, known_embedded_keys]
    unfold amo_list_paged_go
    norm_num [c7_fetch, pick_embedded_items, known_embedded_keys]

/-- C7 amended: an empty page does not terminate pagination by itself —
while the response carries a next link the collector keeps requesting the
following page (up to `maxPages`); when the first page is empty and
carries no next link, collect returns the empty sequence after that single
request. -/
theorem claim_C7_empty_page_behaviour :
    (∀ (α : Type) (fetch : Nat → Nat → PageResp α) (lim maxPages : Nat),
        pick_embedded_items ((fetch (min lim 250) 1).embedded) = [] →
        (fetch (min lim 250) 1).hasNext = true → 2 ≤ maxPages →
        2 ≤ (amo_list_paged fetch lim maxPages).2.length) ∧
    (∀ (α : Type) (fetch : Nat → Nat → PageResp α) (lim maxPages : Nat),
        1 ≤ maxPages →
        pick_embedded_items ((fetch (min lim 250) 1).embedded) = [] →
        (fetch (min lim 250) 1).hasNext = false →
        amo_list_paged fetch lim maxPages = ([], [(min lim 250, 1)])) := by
  constructor
  · intro α fetch lim maxPages hempty hnext hmp
    unfold amo_list_paged
    unfold amo_list_paged_go
    rw [dif_pos (by omega : 1 ≤ maxPages)]
    dsimp only
    rw [if_pos hnext]
    obtain ⟨k, hk, heq⟩ := amo_list_paged_go_reqs fetch (min lim 250) maxPages
      (maxPages + 1) 2 (by omega)
      (if (pick_embedded_items ((fetch (min lim 250) 1).embedded)).isEmpty then []
        else [] ++ pick_embedded_items ((fetch (min lim 250) 1).embedded))
      ([] ++ [(min lim 250, 1)])
    rw [heq]
    simp only [List.nil_append, List.length_append, List.length_map,
      List.length_range', List.length_cons, List.length_nil]
    omega
  · intro α fetch lim maxPages hmp hempty hnext
    unfold amo_list_paged
    unfold amo_list_paged_go
    rw [dif_pos (by omega : 1 ≤ maxPages)]
    dsimp only
    rw [if_neg (by rw [hnext]; exact Bool.false_ne_true)]
    rw [hempty]
    simp

/-- C7 amended witness: with `c7_fetch` the empty first page is followed
by a second request; with `c7_fetch_empty` a single empty page yields `[]`
after one request. -/
theorem claim_C7_witness :
    pick_embedded_items ((c7_fetch (min 100 250) 1).embedded) = [] ∧
    (c7_fetch (min 100 250) 1).hasNext = true ∧
    2 ≤ (amo_list_paged c7_fetch 100 50).2.length ∧
    amo_list_paged c7_fetch_empty 100 10 = ([], [(min 100 250, 1)]) := by
  refine ⟨?_, rfl, ?_, ?_⟩
  · simp [c7_fetch, pick_embedded_items, known_embedded_keys]
  · exact claim_C7_empty_page_behaviour.1 Nat c7_fetch 100 50
      (by simp [c7_fetch, pick_embedded_items, known_embedded_keys]) rfl
      (by omega)
  · exact claim_C7_empty_page_behaviour.2 Nat c7_fetch_empty 100 10 (by omega)
      (by simp [c7_fetch_empty, pick_embedded_items, known_embedded_keys]) rfl

/-! ## Claims about concurrent token refresh -/

/-- C5 counterexample: two interleaved `_amo_get_access_token` calls on
the same tenant with an expired stored token (expiry 100 at now = 100)
both read the old record before either refreshes; the run makes TWO
upstream refresh calls, the two calls return different access tokens, and
the second persisted record overwrites the first — there is no per-tenant
lock or single-flight in the code. -/
theorem claim_C5_counterexample :
    (run_sched 100 ⟨some ("A1"), some ("R1"), some 900, none⟩
        ⟨some ("A2"), some ("R2"), some 900, none⟩ [true, false, true, false]
        (some ⟨some ("OLD"), some ("R0"), some 100, none⟩)).refreshCalls = 2 ∧
    (run_sched 100 ⟨some ("A1"), some ("R1"), some 900, none⟩
        ⟨some ("A2"), some ("R2"), some 900, none⟩ [true, false, true, false]
        (some ⟨some ("OLD"), some ("R0"), some 100, none⟩)).t1
      = TPhase.finished (Except.ok ("A1")) ∧
    (run_sched 100 ⟨some ("A1"), some ("R1"), some 900, none⟩
        ⟨some ("A2"), some ("R2"), some 900, none⟩ [true, false, true, false]
        (some ⟨some ("OLD"), some ("R0"), some 100, none⟩)).t2
      = TPhase.finished (Except.ok ("A2")) ∧
    (run_sched 100 ⟨some ("A1"), some ("R1"), some 900, none⟩
        ⟨some ("A2"), some ("R2"), some 900, none⟩ [true, false, true, false]
        (some ⟨some ("OLD"), some ("R0"), some 100, none⟩)).store
      = some ⟨some ("A2"), some ("R2"), some 900, none⟩ := by
  refine ⟨?_, ?_, ?_, ?_⟩ <;> rfl

/-- C5 amended: the code performs no serialization of refreshes — under
the read-read-refresh-refresh interleaving, any expired stored token leads
to two upstream refresh calls, each caller returns its own provider
response, and the second persisted record overwrites the first. -/
theorem claim_C5_no_single_flight :
    ∀ (tok r1 r2 : TokenRecord) (now : Int),
      tok.expires_at.getD 0 ≤ now →
      (run_sched now r1 r2 [true, false, true, false] (some tok)).refreshCalls = 2 ∧
      (run_sched now r1 r2 [true, false, true, false] (some tok)).store = some r2 ∧
      (run_sched now r1 r2 [true, false, true, false] (some tok)).t1
        = TPhase.finished (token_access_check r1) ∧
      (run_sched now r1 r2 [true, false, true, false] (some tok)).t2
        = TPhase.finished (token_access_check r2) := by
  intro tok r1 r2 now hexp
  have hrun : run_sched now r1 r2 [true, false, true, false] (some tok)
      = ⟨some r2, 2, TPhase.finished (token_access_check r1),
          TPhase.finished (token_access_check r2)⟩ := by
    unfold run_sched
    simp only [List.foldl]
    unfold sched_step thread_step
    simp [hexp]
  rw [hrun]
  exact ⟨rfl, rfl, rfl, rfl⟩

/-- C5 amended witness: the interleaving at a concrete expired token and
two concrete provider responses. -/
theorem claim_C5_witness :
    (⟨some ("OLD"), some ("R0"), some 50, none⟩ : TokenRecord).expires_at.getD 0 ≤ 60 ∧
    (run_sched 60 ⟨some ("B1"), some ("S1"), some 700, none⟩
        ⟨some ("B2"), some ("S2"), some 700, none⟩ [true, false, true, false]
        (some ⟨some ("OLD"), some ("R0"), some 50, none⟩)).refreshCalls = 2 ∧
    (run_sched 60 ⟨some ("B1"), some ("S1"), some 700, none⟩
        ⟨some ("B2"), some ("S2"), some 700, none⟩ [true, false, true, false]
        (some ⟨some ("OLD"), some ("R0"), some 50, none⟩)).store
      = some ⟨some ("B2"), some ("S2"), some 700, none⟩ := by
  refine ⟨by decide, ?_, ?_⟩
  · exact (claim_C5_no_single_flight ⟨some ("OLD"), some ("R0"), some 50, none⟩
      ⟨some ("B1"), some ("S1"), some 700, none⟩ ⟨some ("B2"), some ("S2"), some 700, none⟩
      60 (by decide)).1
  · exact (claim_C5_no_single_flight ⟨some ("OLD"), some ("R0"), some 50, none⟩
      ⟨some ("B1"), some ("S1"), some 700, none⟩ ⟨some ("B2"), some ("S2"), some 700, none⟩
      60 (by decide)).2.1

/-! ## Claims about the report shape and totals -/

/-- C3 counterexample: the totals object produced by `report_dashboard`
has no won fields at all (neither snake_case nor camelCase spelling), here
evaluated on a report with one lost lead. -/
theorem claim_C3_counterexample :
    ((report_dashboard_core [(1, "Alice")] [(5, "Price")] 1000
        [⟨1, some ("D"), some 100, some 1, some 143, some 1, some 5, some 10⟩]
        []).totals.lookup ("won_count")) = none ∧
    ((report_dashboard_core [(1, "Alice")] [(5, "Price")] 1000
        [⟨1, some ("D"), some 100, some 1, some 143, some 1, some 5, some 10⟩]
        []).totals.lookup ("wonCount")) = none ∧
    ((report_dashboard_core [(1, "Alice")] [(5, "Price")] 1000
        [⟨1, some ("D"), some 100, some 1, some 143, some 1, some 5, some 10⟩]
        []).totals.lookup ("won_sum")) = none ∧
    ((report_dashboard_core [(1, "Alice")] [(5, "Price")] 1000
        [⟨1, some ("D"), some 100, some 1, some 143, some 1, some 5, some 10⟩]
        []).totals.lookup ("wonSum")) = none := by
  exact ⟨rfl, rfl, rfl, rfl⟩

/-- C3 amended: the totals object contains exactly lost_count, lost_sum,
stale_count, stale_sum and total_risk_sum (no won fields); each count/sum
is the plain sum of the corresponding field across all manager aggregates,
and total_risk_sum = lost_sum + stale_sum. -/
theorem claim_C3_totals_shape :
    ∀ (userName reasonName : List (Int × String)) (now : Nat)
      (lostLeads : List Lead) (staleLeads : List (Lead × Nat)),
      (report_dashboard_core userName reasonName now lostLeads staleLeads).totals
        = [("lost_count",
              (((report_dashboard_core userName reasonName now lostLeads
                  staleLeads).managers.map fun m => (m.lost_count : Int)).sum)),
           ("lost_sum",
              (((report_dashboard_core userName reasonName now lostLeads
                  staleLeads).managers.map fun m => m.lost_sum).sum)),
           ("stale_count",
              (((report_dashboard_core userName reasonName now lostLeads
                  staleLeads).managers.map fun m => (m.stale_count : Int)).sum)),
           ("stale_sum",
              (((report_dashboard_core userName reasonName now lostLeads
                  staleLeads).managers.map fun m => m.stale_sum).sum)),
           ("total_risk_sum",
              (((report_dashboard_core userName reasonName now lostLeads
                  staleLeads).managers.map fun m => m.lost_sum).sum)
              + (((report_dashboard_core userName reasonName now lostLeads
                  staleLeads).managers.map fun m => m.stale_sum).sum))] := by
  intro userName reasonName now lostLeads staleLeads
  rfl

/-! ## The sort relations are total preorders -/

theorem chars_le_total : ∀ a b, chars_le a b = true ∨ chars_le b a = true := by
  intro a
  induction a with
  | nil => intro b; left; rfl
  | cons x xs ih =>
    intro b
    cases b with
    | nil => right; rfl
    | cons y ys =>
      simp only [chars_le]
      rcases lt_trichotomy x.toNat y.toNat with h | h | h
      · left; rw [if_pos h]
      · rcases ih ys with h2 | h2
        · left; rw [if_neg (by omega), if_neg (by omega)]; exact h2
        · right; rw [if_neg (by omega), if_neg (by omega)]; exact h2
      · right; rw [if_pos h]

theorem chars_le_trans :
    ∀ a b c, chars_le a b = true → chars_le b c = true → chars_le a c = true := by
  intro a
  induction a with
  | nil => intro b c _ _; rfl
  | cons x xs ih =>
    intro b c hab hbc
    cases b with
    | nil => exact absurd hab (by simp [chars_le])
    | cons y ys =>
      cases c with
      | nil => exact absurd hbc (by simp [chars_le])
      | cons z zs =>
        simp only [chars_le] at hab hbc ⊢
        rcases lt_trichotomy x.toNat y.toNat with h1 | h1 | h1 <;>
          rcases lt_trichotomy y.toNat z.toNat with h2 | h2 | h2
        · rw [if_pos (by omega)]
        · rw [if_pos (by omega)]
        · rw [if_neg (by omega), if_pos (by omega)] at hbc
          exact absurd hbc (by simp)
        · rw [if_pos (by omega)]
        · rw [if_neg (by omega), if_neg (by omega)] at hab
          rw [if_neg (by omega), if_neg (by omega)] at hbc
          rw [if_neg (by omega), if_neg (by omega)]
          exact ih ys zs hab hbc
        · rw [if_neg (by omega), if_pos (by omega)] at hbc
          exact absurd hbc (by simp)
        · rw [if_neg (by omega), if_pos (by omega)] at hab
          exact absurd hab (by simp)
        · rw [if_neg (by omega), if_pos (by omega)] at hab
          exact absurd hab (by simp)
        · rw [if_neg (by omega), if_pos (by omega)] at hab
          exact absurd hab (by simp)

theorem str_le_total : ∀ a b, str_le a b = true ∨ str_le b a = true :=
  fun a b => chars_le_total a.data b.data

theorem str_le_trans :
    ∀ a b c, str_le a b = true → str_le b c = true → str_le a c = true :=
  fun a b c => chars_le_trans a.data b.data c.data

theorem nat_le_total : ∀ a b, nat_le a b = true ∨ nat_le b a = true := by
  intro a b
  simp only [nat_le, decide_eq_true_eq]
  omega

theorem nat_le_trans :
    ∀ a b c, nat_le a b = true → nat_le b c = true → nat_le a c = true := by
  intro a b c
  simp only [nat_le, decide_eq_true_eq]
  omega

theorem lex2_le_total {γ : Type} (cle : γ → γ → Bool)
    (hco : ∀ x y, cle x y = true ∨ cle y x = true) :
    ∀ a b, lex2_le cle a b = true ∨ lex2_le cle b a = true := by
  intro a b
  simp only [lex2_le, Bool.or_eq_true, Bool.and_eq_true, decide_eq_true_eq]
  rcases lt_trichotomy a.1 b.1 with h | h | h
  · exact Or.inl (Or.inl h)
  · rcases hco a.2 b.2 with h2 | h2
    · exact Or.inl (Or.inr ⟨h, h2⟩)
    · exact Or.inr (Or.inr ⟨h.symm, h2⟩)
  · exact Or.inr (Or.inl h)

theorem lex2_le_trans {γ : Type} (cle : γ → γ → Bool)
    (hct : ∀ x y z, cle x y = true → cle y z = true → cle x z = true) :
    ∀ a b c, lex2_le cle a b = true → lex2_le cle b c = true →
      lex2_le cle a c = true := by
  intro a b c hab hbc
  simp only [lex2_le, Bool.or_eq_true, Bool.and_eq_true, decide_eq_true_eq]
    at hab hbc ⊢
  rcases hab with h1 | ⟨h1, h1c⟩ <;> rcases hbc with h2 | ⟨h2, h2c⟩
  · exact Or.inl (by omega)
  · exact Or.inl (by omega)
  · exact Or.inl (by omega)
  · exact Or.inr ⟨by omega, hct _ _ _ h1c h2c⟩

theorem lex3_le_total {γ : Type} (cle : γ → γ → Bool)
    (hco : ∀ x y, cle x y = true ∨ cle y x = true) :
    ∀ a b, lex3_le cle a b = true ∨ lex3_le cle b a = true :=
  fun a b => lex2_le_total (lex2_le cle) (lex2_le_total cle hco) a b

theorem lex3_le_trans {γ : Type} (cle : γ → γ → Bool)
    (hct : ∀ x y z, cle x y = true → cle y z = true → cle x z = true) :
    ∀ a b c, lex3_le cle a b = true → lex3_le cle b c = true →
      lex3_le cle a c = true :=
  fun a b c => lex2_le_trans (lex2_le cle) (lex2_le_trans cle hct) a b c

theorem reason_le_total : ∀ a b, reason_le a b = true ∨ reason_le b a = true :=
  fun a b => lex3_le_total str_le str_le_total (reason_key a) (reason_key b)

theorem reason_le_trans :
    ∀ a b c, reason_le a b = true → reason_le b c = true →
      reason_le a c = true :=
  fun a b c =>
    lex3_le_trans str_le str_le_trans (reason_key a) (reason_key b) (reason_key c)

theorem lost_lead_le_total :
    ∀ a b, lost_lead_le a b = true ∨ lost_lead_le b a = true :=
  fun a b => lex2_le_total nat_le nat_le_total (lost_lead_key a) (lost_lead_key b)

theorem lost_lead_le_trans :
    ∀ a b c, lost_lead_le a b = true → lost_lead_le b c = true →
      lost_lead_le a c = true :=
  fun a b c =>
    lex2_le_trans nat_le nat_le_trans (lost_lead_key a) (lost_lead_key b)
      (lost_lead_key c)

theorem stale_lead_le_total :
    ∀ a b, stale_lead_le a b = true ∨ stale_lead_le b a = true :=
  fun a b =>
    lex3_le_total nat_le nat_le_total (stale_lead_key a) (stale_lead_key b)

theorem stale_lead_le_trans :
    ∀ a b c, stale_lead_le a b = true → stale_lead_le b c = true →
      stale_lead_le a c = true :=
  fun a b c =>
    lex3_le_trans nat_le nat_le_trans (stale_lead_key a) (stale_lead_key b)
      (stale_lead_key c)

theorem manager_le_total : ∀ a b, manager_le a b = true ∨ manager_le b a = true :=
  fun a b => lex3_le_total str_le str_le_total (manager_key a) (manager_key b)

theorem manager_le_trans :
    ∀ a b c, manager_le a b = true → manager_le b c = true →
      manager_le a c = true :=
  fun a b c =>
    lex3_le_trans str_le str_le_trans (manager_key a) (manager_key b)
      (manager_key c)

/-! ## Claim about the report orderings -/

/-- C8: the report's manager list is a permutation of the finalised
per-manager aggregates sorted ascending by the key
`(-(lostSum+staleSum), -(lostCount+staleCount), managerName)`, and inside
every emitted manager the lost-by-reason rows are sorted by
`(-sum, -count, reasonName)`, the lost leads by `(-price, id)` and the
stale leads by `(-price, -daysSinceActivity, id)`.  All four orders are
the exact lexicographic key orders of the code, so identical input data
yields identical ordering. -/
theorem claim_C8_report_orderings :
    ∀ (userName reasonName : List (Int × String)) (now : Nat)
      (lostLeads : List Lead) (staleLeads : List (Lead × Nat)),
      List.Sorted (fun a b => manager_le a b = true)
        (build_managers_list userName reasonName now lostLeads staleLeads) ∧
      (build_managers_list userName reasonName now lostLeads staleLeads).Perm
        ((per_manager_groups userName reasonName now lostLeads staleLeads).map
          (fun p => finalize_manager p.2)) ∧
      ((build_managers_list userName reasonName now lostLeads staleLeads).map
          (fun m => m.lost_by_reason)).Forall
        (List.Sorted (fun a b => reason_le a b = true)) ∧
      ((build_managers_list userName reasonName now lostLeads staleLeads).map
          (fun m => m.lost_leads)).Forall
        (List.Sorted (fun a b => lost_lead_le a b = true)) ∧
      ((build_managers_list userName reasonName now lostLeads staleLeads).map
          (fun m => m.stale_leads)).Forall
        (List.Sorted (fun a b => stale_lead_le a b = true)) := by
  intro userName reasonName now lostLeads staleLeads
  have hmem : ∀ m, m ∈ build_managers_list userName reasonName now lostLeads
      staleLeads → ∃ p, m = finalize_manager p := by
    intro m hm
    unfold build_managers_list at hm
    have := (List.perm_insertionSort (fun a b => manager_le a b = true) _).mem_iff.mp hm
    obtain ⟨q, _, hq⟩ := List.mem_map.mp this
    exact ⟨q.2, hq.symm⟩
  refine ⟨?_, ?_, ?_, ?_, ?_⟩
  · unfold build_managers_list
    exact @List.sorted_insertionSort _ (fun a b => manager_le a b = true) _
      ⟨manager_le_total⟩ ⟨manager_le_trans⟩ _
  · unfold build_managers_list
    exact List.perm_insertionSort _ _
  · rw [List.forall_iff_forall_mem]
    intro xs hxs
    obtain ⟨m, hm, rfl⟩ := List.mem_map.mp hxs
    obtain ⟨p, rfl⟩ := hmem m hm
    show List.Sorted _ (List.insertionSort (fun a b => reason_le a b = true)
      p.lost_by_reason)
    exact @List.sorted_insertionSort _ (fun a b => reason_le a b = true) _
      ⟨reason_le_total⟩ ⟨reason_le_trans⟩ _
  · rw [List.forall_iff_forall_mem]
    intro xs hxs
    obtain ⟨m, hm, rfl⟩ := List.mem_map.mp hxs
    obtain ⟨p, rfl⟩ := hmem m hm
    show List.Sorted _ (List.insertionSort (fun a b => lost_lead_le a b = true)
      p.lost_leads)
    exact @List.sorted_insertionSort _ (fun a b => lost_lead_le a b = true) _
      ⟨lost_lead_le_total⟩ ⟨lost_lead_le_trans⟩ _
  · rw [List.forall_iff_forall_mem]
    intro xs hxs
    obtain ⟨m, hm, rfl⟩ := List.mem_map.mp hxs
    obtain ⟨p, rfl⟩ := hmem m hm
    show List.Sorted _ (List.insertionSort (fun a b => stale_lead_le a b = true)
      p.stale_leads)
    exact @List.sorted_insertionSort _ (fun a b => stale_lead_le a b = true) _
      ⟨stale_lead_le_total⟩ ⟨stale_lead_le_trans⟩ _

end LossControl
